import Mathlib

/-!
Verification of the FocusGuard focus-timer application (src/app/main.py).

The development shallowly embeds the two stateful cores of the program:

* the focus/break session state machine driven by `MainWindow._on_start`,
  `MainWindow._on_tick`, `MainWindow._start_focus_phase`,
  `MainWindow._start_break_phase`, `MainWindow._on_stop`; and
* the camera monitor loop `CameraMonitor.run` with its helpers
  `CameraMonitor._head_down` and `CameraMonitor._phone_detected`.

Machine floats (landmark coordinates, `time.time()` timestamps) are modelled
as rationals; Python's unbounded `int` is modelled as `ℤ`.  External
collaborators (camera, mediapipe face mesh, YOLO detector) are modelled as
oracles: each loop iteration consumes a `FrameInput` describing what the
camera and the classifiers would report for that frame.
-/

namespace FocusGuard

/-- Embedding of the `AppConfig` dataclass fields consulted by the session
state machine and the monitor loop (durations in minutes/seconds as separate
`int` fields, the prompt cooldown in seconds, and the monitor-enabled flag). -/
structure AppConfig where
  focus_minutes : ℤ
  focus_seconds : ℤ
  break_minutes : ℤ
  break_seconds : ℤ
  prompt_cooldown : ℚ
  enable_monitor : Bool

/-- Total focus duration in seconds, `focus_minutes * 60 + focus_seconds`,
as computed in `MainWindow._on_start` and `MainWindow._start_focus_phase`. -/
def focusTotal (c : AppConfig) : ℤ := c.focus_minutes * 60 + c.focus_seconds

/-- Total break duration in seconds, `break_minutes * 60 + break_seconds`,
as computed in `MainWindow._on_start` and `MainWindow._start_break_phase`. -/
def breakTotal (c : AppConfig) : ℤ := c.break_minutes * 60 + c.break_seconds

/-- Session state: `running` is whether the 1-second `QTimer` is active,
`is_break_mode` and `remaining` are the fields `MainWindow._is_break_mode`
and `MainWindow._remaining`, and `monitor_on` records whether a
`CameraMonitor` instance is currently held (`MainWindow._monitor is not
None`). -/
structure SessionState where
  running : Bool
  is_break_mode : Bool
  remaining : ℤ
  monitor_on : Bool
deriving DecidableEq

/-- The state built by `MainWindow.__init__`: no timer running, not in break
mode, `_remaining = 0`, no monitor thread. -/
def idleState : SessionState :=
  { running := false, is_break_mode := false, remaining := 0, monitor_on := false }

/-- Embedding of `MainWindow._start_focus_phase`: clear break mode, reset the
countdown to the configured focus total, and start the monitor thread exactly
when `enable_monitor` is set.  Both call sites (the start handler and the
break-expiry tick) leave the 1-second timer running. -/
def focusPhase (c : AppConfig) : SessionState :=
  { running := true, is_break_mode := false, remaining := focusTotal c,
    monitor_on := c.enable_monitor }

/-- Embedding of `MainWindow._start_break_phase`: set break mode, reset the
countdown to the configured break total, and stop the monitor thread
(`_stop_monitor` leaves `_monitor = None` unconditionally). -/
def breakPhase (c : AppConfig) : SessionState :=
  { running := true, is_break_mode := true, remaining := breakTotal c,
    monitor_on := false }

/-- Embedding of `MainWindow._on_start`.  The handler reads the configured
durations, rejects the request (leaving the state untouched) when the focus
total or the break total is `<= 0`, and otherwise enters the focus phase and
starts the 1-second timer.  The `cameraVerified` argument records whether a
camera check succeeded before the click; the source handler never consults
any such check, so the result cannot depend on this argument. -/
def onStart (c : AppConfig) (s : SessionState) (cameraVerified : Bool) : SessionState :=
  if focusTotal c ≤ 0 then s
  else if breakTotal c ≤ 0 then s
  else focusPhase c

/-- Embedding of `MainWindow._on_stop`: stop the 1-second timer and tear the
monitor thread down. -/
def onStop (s : SessionState) : SessionState :=
  { s with running := false, monitor_on := false }

/-- Embedding of `MainWindow._on_tick`, which fires only while the 1-second
timer is running: decrement `_remaining`; when the decremented value is
`<= 0`, enter the other phase (`_start_break_phase` from focus,
`_start_focus_phase` from break). -/
def sessionTick (c : AppConfig) (s : SessionState) : SessionState :=
  if s.running = false then s
  else
    if s.remaining - 1 ≤ 0 then
      if s.is_break_mode = false then breakPhase c else focusPhase c
    else { s with remaining := s.remaining - 1 }

/-- Iterated clock ticks. -/
def sessionTicks (c : AppConfig) : ℕ → SessionState → SessionState
  | 0, s => s
  | n + 1, s => sessionTicks c n (sessionTick c s)

/-- States reachable from the freshly constructed window by clicks of the
start and stop buttons and expiries of the 1-second timer. -/
inductive Reachable (c : AppConfig) : SessionState → Prop
  | init : Reachable c idleState
  | start (v : Bool) {s : SessionState} :
      Reachable c s → Reachable c (onStart c s v)
  | tick {s : SessionState} :
      Reachable c s → Reachable c (sessionTick c s)
  | stop {s : SessionState} :
      Reachable c s → Reachable c (onStop s)

/- ### The camera monitor loop -/

/-- Embedding of `CameraMonitor._head_down`: `eye_mid_y` is the mean of the
y-coordinates of landmarks 33 and 263, the denominator is landmark 152's y
minus `eye_mid_y`; a non-positive denominator yields `False`, and otherwise
the predicate holds exactly when `(nose_y - eye_mid_y) / denom > 0.45` with
the nose at landmark 1. -/
def head_down (lm : ℕ → ℚ) : Bool :=
  let eye_mid_y : ℚ := (lm 33 + lm 263) / 2
  let denom : ℚ := lm 152 - eye_mid_y
  if denom ≤ 0 then false
  else decide (45 / 100 < (lm 1 - eye_mid_y) / denom)

/-- The fixed label allow-list of `CameraMonitor._phone_detected`. -/
def phoneLabels : List String := ["cell phone", "phone", "mobile phone", "remote"]

/-- Embedding of `CameraMonitor._phone_detected`: when no YOLO model is
loaded the answer is `False`; otherwise the detector's label names for the
frame are scanned and the answer is whether any of them lies in the
allow-list. -/
def phone_detected (yolo : Bool) (labels : List String) : Bool :=
  if yolo = false then false
  else labels.any fun n => phoneLabels.contains n

/-- Outcome of classifying one accepted frame that contains a face, per the
body of `CameraMonitor.run`: the head-down flag, the phone flag (line
`phone = self._phone_detected(frame) if self._yolo else False`), and whether
the object detector was actually invoked on the frame. -/
structure FrameResult where
  head_down_flag : Bool
  phone_flag : Bool
  ran_detector : Bool
deriving DecidableEq

/-- Per-frame classification in `CameraMonitor.run`: `_head_down` is always
evaluated on the face landmarks, and `_phone_detected` is invoked exactly
when a YOLO model is loaded — independently of the head-down outcome. -/
def classifyFrame (yolo : Bool) (lm : ℕ → ℚ) (labels : List String) : FrameResult :=
  { head_down_flag := head_down lm,
    phone_flag := if yolo then phone_detected yolo labels else false,
    ran_detector := yolo }

/-- Cooldown bookkeeping for one accepted face-bearing frame at time `t`
(lines `if head_down or phone: if now - self._last_prompt_time >= ...`):
returns the new `_last_prompt_time`, whether a prompt was emitted, and
whether the detector ran.  A frame with no face (`multi_face_landmarks`
empty) is skipped before any classifier runs. -/
def processFrame (cooldown : ℚ) (yolo : Bool) (last_prompt : ℚ) (t : ℚ)
    (lms : Option (ℕ → ℚ)) (labels : List String) : ℚ × Bool × Bool :=
  match lms with
  | none => (last_prompt, false, false)
  | some lm =>
    let r := classifyFrame yolo lm labels
    if (r.head_down_flag || r.phone_flag) && decide (cooldown ≤ t - last_prompt) then
      (t, true, r.ran_detector)
    else (last_prompt, false, r.ran_detector)

/-- Oracle describing one iteration of the polling loop: `readFail` is
`cap.read()` returning `ok = False`; `raises t` is a frame read at time `t`
whose processing (colour conversion, face-mesh inference, landmark geometry
or object detection) raises a Python exception; `frame t lms labels` is a
frame read at time `t` for which the face mesh reports landmarks `lms`
(`none` when no face is found) and the detector would report the label names
`labels`. -/
inductive FrameInput where
  | readFail
  | raises (t : ℚ)
  | frame (t : ℚ) (lms : Option (ℕ → ℚ)) (labels : List String)

/-- Mutable locals of `CameraMonitor.run`: `_last_prompt_time` (initialised
to `0.0` in `__init__`) and `last_frame_time` (initialised to `0.0` at the
top of `run`). -/
structure LoopState where
  last_prompt_time : ℚ
  last_frame_time : ℚ
deriving DecidableEq

/-- Loop state on entry to the polling loop. -/
def initLoopState : LoopState := { last_prompt_time := 0, last_frame_time := 0 }

/-- The fixed `_frame_interval` throttle of 0.3 seconds. -/
def frameInterval : ℚ := 3 / 10

/-- Result of running the polling loop over a finite trace of frame inputs:
the final loop state, the times at which a prompt was emitted, and whether
the loop was terminated by an uncaught exception. -/
structure RunResult where
  final : LoopState
  emits : List ℚ
  crashed : Bool
deriving DecidableEq

/-- Embedding of the polling loop of `CameraMonitor.run` over a finite input
trace.  A failed read is skipped (`continue`).  A frame arriving within
`_frame_interval` of the last accepted frame is skipped before any
processing.  An accepted frame is processed by `processFrame`; the loop body
contains no `try`/`except`, so an exception raised while processing an
accepted frame propagates out of `run` and no later input is looked at. -/
def runLoop (cooldown : ℚ) (yolo : Bool) : LoopState → List FrameInput → RunResult
  | st, [] => { final := st, emits := [], crashed := false }
  | st, FrameInput.readFail :: rest => runLoop cooldown yolo st rest
  | st, FrameInput.raises t :: rest =>
      if t - st.last_frame_time < frameInterval then runLoop cooldown yolo st rest
      else { final := st, emits := [], crashed := true }
  | st, FrameInput.frame t lms labels :: rest =>
      if t - st.last_frame_time < frameInterval then runLoop cooldown yolo st rest
      else
        let r := processFrame cooldown yolo st.last_prompt_time t lms labels
        let tail := runLoop cooldown yolo { last_prompt_time := r.1, last_frame_time := t } rest
        if r.2.1 then { tail with emits := t :: tail.emits }
        else tail

/- ### Concrete inputs used in boundary and scenario checks -/

/-- Landmarks of a clearly head-down face: eyes at y = 0.4, chin at y = 0.6,
nose at y = 0.55, giving ratio (0.55 - 0.4) / (0.6 - 0.4) = 0.75 > 0.45. -/
def qualLm : ℕ → ℚ := fun i => if i = 1 then 11 / 20 else if i = 152 then 3 / 5 else 2 / 5

/-- The boundary landmarks of the spec's ratio test: eyes at y = 0.40, chin
at y = 0.60, nose at y = 0.49, giving ratio exactly 0.45. -/
def boundLm : ℕ → ℚ := fun i => if i = 1 then 49 / 100 else if i = 152 then 3 / 5 else 2 / 5

/-- Degenerate landmarks with the chin level with the eyes (denominator 0)
and the nose far below. -/
def flatLm : ℕ → ℚ := fun i => if i = 1 then 9 / 10 else 1 / 2

/-- A configuration with a 1-second focus phase and a 1-second break phase,
monitoring enabled. -/
def cOne : AppConfig :=
  { focus_minutes := 0, focus_seconds := 1, break_minutes := 0, break_seconds := 1,
    prompt_cooldown := 10, enable_monitor := true }

/-- The default configuration: 25-minute focus, 5-minute break, 10-second
prompt cooldown, monitoring enabled. -/
def cStd : AppConfig :=
  { focus_minutes := 25, focus_seconds := 0, break_minutes := 5, break_seconds := 0,
    prompt_cooldown := 10, enable_monitor := true }

/- ### Theorems -/

/-- C4: the head-down predicate holds iff `chinY - eyeMidY > 0` and
`(noseY - eyeMidY) / (chinY - eyeMidY) > 0.45`, with `eyeMidY` the mean of
landmarks 33 and 263, the nose at landmark 1 and the chin at landmark 152;
the spec's boundary example with ratio exactly 0.45 does not trigger; and a
non-positive denominator yields `false` without failing, regardless of the
nose position. -/
theorem head_down_charac :
    (∀ lm : ℕ → ℚ,
        head_down lm = true ↔
          0 < lm 152 - (lm 33 + lm 263) / 2 ∧
            45 / 100 < (lm 1 - (lm 33 + lm 263) / 2) / (lm 152 - (lm 33 + lm 263) / 2))
    ∧ head_down boundLm = false
    ∧ ∀ lm : ℕ → ℚ, lm 152 - (lm 33 + lm 263) / 2 ≤ 0 → head_down lm = false := by
  refine ⟨fun lm => ?_, by norm_num [head_down, boundLm], fun lm h => ?_⟩
  · simp only [head_down]
    split_ifs with h
    · simp only [Bool.false_eq_true, false_iff, not_and, not_lt]
      intro h0
      exact absurd h0 (not_lt.mpr h)
    · simp only [decide_eq_true_eq]
      exact (and_iff_right (not_le.mp h)).symm
  · simp only [head_down]
    rw [if_pos h]

/-- Witness for C4 at the degenerate landmarks `flatLm`, whose denominator
is zero. -/
theorem head_down_charac_witness : head_down flatLm = false :=
  head_down_charac.2.2 flatLm (by norm_num [flatLm])

/-- C5 counterexample: a frame whose head-down ratio exceeds the threshold
still has the object detector run on it when a YOLO model is loaded — the
source computes `phone = self._phone_detected(frame) if self._yolo else
False` unconditionally, with no short-circuit on `head_down`. -/
theorem detector_runs_on_head_down_cex :
    head_down qualLm = true
    ∧ (processFrame 10 true 0 100 (some qualLm) ["cup"]).2.2 = true := by
  constructor
  · norm_num [head_down, qualLm]
  · norm_num [processFrame, classifyFrame, head_down, phone_detected, qualLm, phoneLabels]

/-- C5 amended: for every accepted face-bearing frame, the object detector
is run exactly when a detector is available, regardless of the head-down
outcome; and `ObjectPresent` is marked iff the detector is available and
some detected label belongs to the fixed allow-list
`{"cell phone", "phone", "mobile phone", "remote"}` — so labels
`{"keyboard", "cup"}` never mark it and `{"cell phone"}` always does. -/
theorem detector_allow_list :
    (∀ (yolo : Bool) (lm : ℕ → ℚ) (labels : List String),
        (classifyFrame yolo lm labels).ran_detector = yolo)
    ∧ (∀ (yolo : Bool) (lm : ℕ → ℚ) (labels : List String),
        (classifyFrame yolo lm labels).phone_flag = true ↔
          yolo = true ∧ ∃ l ∈ labels, l ∈ phoneLabels)
    ∧ phone_detected true ["keyboard", "cup"] = false
    ∧ phone_detected true ["cell phone"] = true := by
  refine ⟨fun yolo lm labels => rfl, fun yolo lm labels => ?_, by decide, by decide⟩
  cases yolo
  · simp [classifyFrame]
  · simp [classifyFrame, phone_detected, List.any_eq_true]

/-- C10: a frame in which the landmark model reports no face produces no
event, leaves `_last_prompt_time` unchanged, and never reaches the object
detector, whatever labels the detector would have reported. -/
theorem no_face_no_event (cooldown : ℚ) (yolo : Bool) (lp t : ℚ)
    (labels : List String) :
    processFrame cooldown yolo lp t none labels = (lp, false, false) := rfl

/-- C2: an accepted face-bearing frame at time `t` that qualifies as a
distraction emits a prompt iff `t - last_prompt_time ≥ cooldown`; on
emission `_last_prompt_time` becomes `t` and otherwise it is unchanged; any
frame that emits no prompt leaves `_last_prompt_time` unchanged; and in the
concrete scenario with cooldown 8 and qualifying frames at times 100, 101
and 109, exactly the frames at 100 and 109 emit. -/
theorem cooldown_gate (cooldown : ℚ) (yolo : Bool) (lp t : ℚ) (lm : ℕ → ℚ)
    (labels : List String)
    (hq : ((classifyFrame yolo lm labels).head_down_flag
            || (classifyFrame yolo lm labels).phone_flag) = true) :
    ((processFrame cooldown yolo lp t (some lm) labels).2.1 = true ↔ cooldown ≤ t - lp)
    ∧ (processFrame cooldown yolo lp t (some lm) labels).1
        = (if cooldown ≤ t - lp then t else lp)
    ∧ (∀ (lp' t' : ℚ) (lms' : Option (ℕ → ℚ)) (labels' : List String),
        (processFrame cooldown yolo lp' t' lms' labels').2.1 = false →
        (processFrame cooldown yolo lp' t' lms' labels').1 = lp')
    ∧ runLoop 8 false initLoopState
        [FrameInput.frame 100 (some qualLm) [], FrameInput.frame 101 (some qualLm) [],
          FrameInput.frame 109 (some qualLm) []]
      = { final := { last_prompt_time := 109, last_frame_time := 109 },
          emits := [100, 109], crashed := false } := by
  refine ⟨?_, ?_, ?_, ?_⟩
  · by_cases hc : cooldown ≤ t - lp <;> simp [processFrame, hq, hc]
  · by_cases hc : cooldown ≤ t - lp <;> simp [processFrame, hq, hc]
  · intro lp' t' lms' labels' he
    match lms' with
    | none => rfl
    | some lm' =>
      simp only [processFrame] at he ⊢
      split_ifs at he ⊢ <;> simp_all
  · norm_num [runLoop, processFrame, classifyFrame, head_down, phone_detected,
      qualLm, initLoopState, frameInterval]

/-- Witness for C2 at cooldown 8, last prompt time 0, a qualifying frame at
time 100. -/
theorem cooldown_gate_witness :
    (processFrame 8 false 0 100 (some qualLm) []).2.1 = true ↔ (8 : ℚ) ≤ 100 - 0 :=
  (cooldown_gate 8 false 0 100 qualLm []
    (by norm_num [classifyFrame, head_down, qualLm])).1

/-- C9: `_last_prompt_time` starts at 0, so the very first qualifying frame
emits a prompt for every cooldown in the configurable range 3–120 seconds:
the wall clock `time.time()` is far past 120 (the hypothesis `120 ≤ t`), so
`t - 0 ≥ cooldown` holds at the first qualifying frame regardless of the
configured cooldown. -/
theorem first_qualifying_emits (cooldown t : ℚ) (yolo : Bool) (lm : ℕ → ℚ)
    (labels : List String)
    (h3 : 3 ≤ cooldown) (h120 : cooldown ≤ 120) (ht : 120 ≤ t)
    (hq : ((classifyFrame yolo lm labels).head_down_flag
            || (classifyFrame yolo lm labels).phone_flag) = true) :
    initLoopState.last_prompt_time = 0
    ∧ runLoop cooldown yolo initLoopState [FrameInput.frame t (some lm) labels]
        = { final := { last_prompt_time := t, last_frame_time := t },
            emits := [t], crashed := false } := by
  have h1 : ¬ (t < frameInterval) :=
    not_lt.mpr (le_trans (by norm_num [frameInterval]) ht)
  have h2 : cooldown ≤ t := le_trans h120 ht
  refine ⟨rfl, ?_⟩
  simp [runLoop, processFrame, hq, h1, h2, initLoopState]

/-- Witness for C9 with cooldown 8 and a head-down frame at time 150. -/
theorem first_qualifying_emits_witness :
    initLoopState.last_prompt_time = 0
    ∧ runLoop 8 false initLoopState [FrameInput.frame 150 (some qualLm) []]
        = { final := { last_prompt_time := 150, last_frame_time := 150 },
            emits := [150], crashed := false } :=
  first_qualifying_emits 8 150 false qualLm [] (by norm_num) (by norm_num)
    (by norm_num) (by norm_num [classifyFrame, head_down, qualLm])

/-- C3 counterexample: the loop body of `CameraMonitor.run` contains no
`try`/`except`, so a frame whose processing raises terminates the loop
instead of being skipped: with an exception-raising frame at time 100
followed by a qualifying frame at time 101, the run crashes and emits
nothing, although the qualifying frame alone would have emitted a prompt. -/
theorem exception_crashes_loop_cex :
    runLoop 8 false initLoopState
        [FrameInput.raises 100, FrameInput.frame 101 (some qualLm) []]
      = { final := initLoopState, emits := [], crashed := true }
    ∧ runLoop 8 false initLoopState [FrameInput.frame 101 (some qualLm) []]
      = { final := { last_prompt_time := 101, last_frame_time := 101 },
          emits := [101], crashed := false } := by
  constructor <;>
    norm_num [runLoop, processFrame, classifyFrame, head_down, phone_detected,
      qualLm, initLoopState, frameInterval]

/-- C3 amended: only a failed camera read (`ok = False`) is skipped with the
loop continuing; an exception raised while processing an accepted frame
propagates out of `run`, terminating the polling loop so that no later frame
is processed. -/
theorem loop_error_semantics (cooldown : ℚ) (yolo : Bool) (st : LoopState)
    (rest : List FrameInput) (t : ℚ)
    (h : frameInterval ≤ t - st.last_frame_time) :
    runLoop cooldown yolo st (FrameInput.readFail :: rest)
        = runLoop cooldown yolo st rest
    ∧ runLoop cooldown yolo st (FrameInput.raises t :: rest)
        = { final := st, emits := [], crashed := true } := by
  refine ⟨rfl, ?_⟩
  simp [runLoop, not_lt.mpr h]

/-- Witness for C3's amended statement: a raising frame at time 100 on the
initial loop state terminates the run. -/
theorem loop_error_semantics_witness :
    runLoop 8 false initLoopState [FrameInput.raises 100]
      = { final := initLoopState, emits := [], crashed := true } :=
  (loop_error_semantics 8 false initLoopState [] 100
    (by norm_num [initLoopState, frameInterval])).2

/- ### Session state machine lemmas -/

/-- A tick in a running state with at least 2 seconds left just decrements
the countdown. -/
lemma sessionTick_run_dec (c : AppConfig) (s : SessionState) (hr : s.running = true)
    (h2 : 2 ≤ s.remaining) :
    sessionTick c s = { s with remaining := s.remaining - 1 } := by
  simp only [sessionTick, hr]
  rw [if_neg (by simp), if_neg (by omega)]

/-- A tick in a running state with exactly 1 second left flips the phase. -/
lemma sessionTick_flip (c : AppConfig) (s : SessionState) (hr : s.running = true)
    (h1 : s.remaining = 1) :
    sessionTick c s = (if s.is_break_mode = true then focusPhase c else breakPhase c) := by
  simp only [sessionTick, hr]
  rw [if_neg (by simp), if_pos (by omega)]
  cases hb : s.is_break_mode <;> simp

/-- Counting a running phase down from `k ≥ 1` seconds takes exactly `k`
ticks and ends in the freshly reset opposite phase. -/
lemma sessionTicks_countdown (c : AppConfig) :
    ∀ (k : ℕ) (s : SessionState), 1 ≤ k → s.running = true → s.remaining = (k : ℤ) →
      sessionTicks c k s = (if s.is_break_mode = true then focusPhase c else breakPhase c) := by
  intro k
  induction k with
  | zero => intro s h _ _; omega
  | succ n ih =>
    intro s _ hr hrem
    rcases Nat.eq_zero_or_pos n with hn | hn
    · subst hn
      have h1 : s.remaining = 1 := by exact_mod_cast hrem
      show sessionTicks c 0 (sessionTick c s) = _
      rw [sessionTicks, sessionTick_flip c s hr h1]
    · have h2 : 2 ≤ s.remaining := by omega
      show sessionTicks c n (sessionTick c s) = _
      rw [sessionTick_run_dec c s hr h2]
      have hrem' : ({ s with remaining := s.remaining - 1 } : SessionState).remaining
          = (n : ℤ) := by simp; omega
      simpa using ih { s with remaining := s.remaining - 1 } hn hr hrem'

/-- The inductive invariant of the session: a running state always has at
least one second left and positive configured durations, and the monitor
thread exists only while running a focus phase with monitoring enabled. -/
def SessionInv (c : AppConfig) (s : SessionState) : Prop :=
  (s.running = true → 1 ≤ s.remaining ∧ 1 ≤ focusTotal c ∧ 1 ≤ breakTotal c)
  ∧ (s.monitor_on = true →
      s.running = true ∧ s.is_break_mode = false ∧ c.enable_monitor = true)

lemma sessionInv_start (c : AppConfig) (s : SessionState) (v : Bool)
    (h : SessionInv c s) : SessionInv c (onStart c s v) := by
  by_cases hF : focusTotal c ≤ 0
  · simpa [onStart, hF] using h
  · by_cases hB : breakTotal c ≤ 0
    · simpa [onStart, hF, hB] using h
    · have : onStart c s v = focusPhase c := by simp [onStart, hF, hB]
      rw [this]
      exact ⟨fun _ => ⟨by show (1:ℤ) ≤ focusTotal c; omega, by omega, by omega⟩,
        fun hm => ⟨rfl, rfl, hm⟩⟩

lemma sessionInv_tick (c : AppConfig) (s : SessionState)
    (h : SessionInv c s) : SessionInv c (sessionTick c s) := by
  obtain ⟨h1, h2⟩ := h
  by_cases hr : s.running = true
  · obtain ⟨hrm, hF, hB⟩ := h1 hr
    by_cases h1s : s.remaining = 1
    · rw [sessionTick_flip c s hr h1s]
      cases hb : s.is_break_mode
      · rw [if_neg (by simp)]
        exact ⟨fun _ => ⟨hB, hF, hB⟩, by simp [breakPhase]⟩
      · rw [if_pos rfl]
        exact ⟨fun _ => ⟨hF, hF, hB⟩, fun hm => ⟨rfl, rfl, hm⟩⟩
    · rw [sessionTick_run_dec c s hr (by omega)]
      refine ⟨fun _ => ⟨by show (1:ℤ) ≤ s.remaining - 1; omega, hF, hB⟩, fun hm => ?_⟩
      simpa using h2 (by simpa using hm)
  · have hrf : s.running = false := by revert hr; cases s.running <;> simp
    simpa [sessionTick, hrf] using ⟨h1, h2⟩

lemma sessionInv_stop (c : AppConfig) (s : SessionState) : SessionInv c (onStop s) :=
  ⟨by simp [onStop], by simp [onStop]⟩

/-- Every reachable session state satisfies the invariant. -/
lemma sessionInv_reachable (c : AppConfig) {s : SessionState}
    (h : Reachable c s) : SessionInv c s := by
  induction h with
  | init => exact ⟨by simp [idleState], by simp [idleState]⟩
  | start v _ ih => exact sessionInv_start _ _ _ ih
  | tick _ ih => exact sessionInv_tick _ _ ih
  | stop _ _ => exact sessionInv_stop _ _

/-- C1: for every configuration with focus total `F ≥ 1` and break total
`B ≥ 1`, starting a session yields phase Focus with `remaining = F`; `F`
ticks later the timer is in phase Break with `remaining = B`; a further `B`
ticks return it to phase Focus with `remaining = F`; and each tick in a
running state decrements the countdown by 1, flipping the phase and
resetting the countdown to the new phase's configured duration exactly on
the tick at which the countdown reaches 0. -/
theorem timer_cycle (c : AppConfig) (hF : 1 ≤ focusTotal c) (hB : 1 ≤ breakTotal c) :
    (∀ v : Bool, onStart c idleState v = focusPhase c)
    ∧ (focusPhase c).is_break_mode = false ∧ (focusPhase c).remaining = focusTotal c
    ∧ sessionTicks c (focusTotal c).toNat (focusPhase c) = breakPhase c
    ∧ (breakPhase c).is_break_mode = true ∧ (breakPhase c).remaining = breakTotal c
    ∧ sessionTicks c (breakTotal c).toNat (breakPhase c) = focusPhase c
    ∧ (∀ s : SessionState, s.running = true → 1 ≤ s.remaining →
        sessionTick c s
          = (if s.remaining = 1 then
               (if s.is_break_mode = true then focusPhase c else breakPhase c)
             else { s with remaining := s.remaining - 1 })) := by
  refine ⟨fun v => by unfold onStart; rw [if_neg (by omega), if_neg (by omega)],
    rfl, rfl, ?_, rfl, rfl, ?_, fun s hr hrm => ?_⟩
  · have := sessionTicks_countdown c (focusTotal c).toNat (focusPhase c)
      (by omega) rfl (by show focusTotal c = _; omega)
    simpa [focusPhase] using this
  · have := sessionTicks_countdown c (breakTotal c).toNat (breakPhase c)
      (by omega) rfl (by show breakTotal c = _; omega)
    simpa [breakPhase] using this
  · by_cases h1 : s.remaining = 1
    · rw [sessionTick_flip c s hr h1, if_pos h1]
    · rw [sessionTick_run_dec c s hr (by omega), if_neg h1]

/-- Witness for C1 at the 1-second/1-second configuration `cOne`. -/
theorem timer_cycle_witness :
    sessionTicks cOne (focusTotal cOne).toNat (focusPhase cOne) = breakPhase cOne :=
  (timer_cycle cOne (by norm_num [focusTotal, cOne])
    (by norm_num [breakTotal, cOne])).2.2.2.1

/-- C6 counterexample: with the default configuration (monitoring enabled,
25-minute focus, 5-minute break), the start handler succeeds even when no
camera verification has happened (`cameraVerified = false`); indeed the
result of `_on_start` does not depend on the camera at all, because the
handler checks only the two durations. -/
theorem start_ignores_camera_cex :
    cStd.enable_monitor = true
    ∧ (onStart cStd idleState false).running = true
    ∧ onStart cStd idleState false = onStart cStd idleState true := by
  refine ⟨rfl, by decide, rfl⟩

/-- C6 amended: from the idle state, start succeeds iff both the focus
total and the break total are positive — camera verification is not among
the preconditions (the camera is probed only later, asynchronously, by the
monitor thread); with a non-positive duration the request is rejected and
the session stays idle. -/
theorem start_guard (c : AppConfig) (s : SessionState) (v : Bool)
    (hidle : s.running = false) :
    ((onStart c s v).running = true ↔ 0 < focusTotal c ∧ 0 < breakTotal c)
    ∧ (focusTotal c ≤ 0 ∨ breakTotal c ≤ 0 → onStart c s v = s) := by
  unfold onStart
  by_cases hF : focusTotal c ≤ 0
  · rw [if_pos hF, hidle]
    exact ⟨⟨fun h => absurd h (by simp), fun h => absurd h.1 (by omega)⟩, fun _ => rfl⟩
  · rw [if_neg hF]
    by_cases hB : breakTotal c ≤ 0
    · rw [if_pos hB, hidle]
      exact ⟨⟨fun h => absurd h (by simp), fun h => absurd h.2 (by omega)⟩, fun _ => rfl⟩
    · rw [if_neg hB]
      exact ⟨⟨fun _ => ⟨by omega, by omega⟩, fun _ => rfl⟩, fun h => absurd h (by omega)⟩

/-- Witness for C6's amended statement at the default configuration. -/
theorem start_guard_witness :
    (onStart cStd idleState false).running = true ↔
      0 < focusTotal cStd ∧ 0 < breakTotal cStd :=
  (start_guard cStd idleState false rfl).1

/-- C7: in every reachable session state the monitor thread exists only
outside break mode, so monitoring is never active while the phase is Break;
moreover the focus-expiry tick enters the break phase with the monitor
stopped, and the break-expiry tick re-enters the focus phase with the
monitor running exactly when monitoring is enabled. -/
theorem monitor_paused_in_break (c : AppConfig) :
    (∀ s : SessionState, Reachable c s → s.is_break_mode = true → s.monitor_on = false)
    ∧ (∀ s : SessionState, s.running = true → s.is_break_mode = false →
        s.remaining = 1 →
          sessionTick c s = breakPhase c ∧ (breakPhase c).monitor_on = false)
    ∧ (∀ s : SessionState, s.running = true → s.is_break_mode = true →
        s.remaining = 1 →
          sessionTick c s = focusPhase c
          ∧ (focusPhase c).monitor_on = c.enable_monitor) := by
  refine ⟨fun s h hb => ?_, fun s hr hb h1 => ?_, fun s hr hb h1 => ?_⟩
  · cases hm : s.monitor_on
    · rfl
    · have := ((sessionInv_reachable c h).2 hm).2.1
      rw [hb] at this
      exact absurd this (by simp)
  · rw [sessionTick_flip c s hr h1, if_neg (by simp [hb])]
    exact ⟨rfl, rfl⟩
  · rw [sessionTick_flip c s hr h1, if_pos hb]
    exact ⟨rfl, rfl⟩

/-- Witness for C7: with the 1-second configuration, the state reached by
start followed by one tick is the break phase, and the monitor is off
there. -/
theorem monitor_paused_in_break_witness :
    (sessionTick cOne (onStart cOne idleState true)).monitor_on = false :=
  (monitor_paused_in_break cOne).1 _
    (Reachable.tick (Reachable.start true Reachable.init)) (by decide)

/-- C8 counterexample: at the reachable focus state with `remaining = 1`
(configuration `cOne`), the tick flips the phase although the decremented
countdown is 0, not negative — the code transitions on the tick at which
the countdown reaches 0, one tick before it would go negative. -/
theorem transition_at_zero_cex :
    (onStart cOne idleState true).is_break_mode = false
    ∧ (onStart cOne idleState true).remaining - 1 = 0
    ∧ (sessionTick cOne (onStart cOne idleState true)).is_break_mode = true := by
  refine ⟨by decide, by decide, by decide⟩

/-- C8 amended: every reachable running state has `remaining ≥ 1`, hence
after every tick the countdown is still ≥ 0; and the phase transition
occurs exactly on the tick at which the countdown reaches 0, i.e. the tick
taken from `remaining = 1` — one tick before the countdown would go
negative. -/
theorem remaining_nonneg (c : AppConfig) (s : SessionState) (h : Reachable c s)
    (hr : s.running = true) :
    1 ≤ s.remaining
    ∧ 0 ≤ (sessionTick c s).remaining
    ∧ ((sessionTick c s).is_break_mode ≠ s.is_break_mode ↔ s.remaining = 1) := by
  obtain ⟨hrun, hmon⟩ := sessionInv_reachable c h
  obtain ⟨hrm, hF, hB⟩ := hrun hr
  refine ⟨hrm, ?_, ?_⟩
  · by_cases h1 : s.remaining = 1
    · rw [sessionTick_flip c s hr h1]
      cases hb : s.is_break_mode
      · rw [if_neg (by simp)]
        show (0:ℤ) ≤ breakTotal c
        omega
      · rw [if_pos rfl]
        show (0:ℤ) ≤ focusTotal c
        omega
    · rw [sessionTick_run_dec c s hr (by omega)]
      show (0:ℤ) ≤ s.remaining - 1
      omega
  · by_cases h1 : s.remaining = 1
    · rw [sessionTick_flip c s hr h1]
      simp only [h1, iff_true]
      cases hb : s.is_break_mode
      · rw [if_neg (by simp)]
        simp [breakPhase]
      · rw [if_pos rfl]
        simp [focusPhase]
    · rw [sessionTick_run_dec c s hr (by omega)]
      simp [h1]

/-- Witness for C8's amended statement at the freshly started 1-second
configuration, where one tick does flip the phase. -/
theorem remaining_nonneg_witness :
    1 ≤ (onStart cOne idleState true).remaining
    ∧ 0 ≤ (sessionTick cOne (onStart cOne idleState true)).remaining
    ∧ ((sessionTick cOne (onStart cOne idleState true)).is_break_mode
          ≠ (onStart cOne idleState true).is_break_mode
        ↔ (onStart cOne idleState true).remaining = 1) :=
  remaining_nonneg cOne (onStart cOne idleState true)
    (Reachable.start true Reachable.init) (by decide)

end FocusGuard
